import Mathlib

/-!
Shallow embedding of the reconciliation core of the `clickhouse_modules`
repository (`clickhouse_grants.py` and `clickhouse_users.py`) and proofs of
the specification claims about it.

Server interaction is abstracted: the observed server state (the rows the
read-only queries would return) is passed in explicitly, and the emitted
statement strings are collected in `run_queries` instead of being executed.
Everything else (validation, diffing, statement rendering, result
aggregation) is translated directly from the Python source.
-/

namespace CHGrants

/-- System-level grants list, `clickhouse_grants.py` lines 241-248. -/
def system_level_grants : List String :=
  ["CREATE FUNCTION", "DROP FUNCTION", "RELOAD DICTIONARY", "KILL QUERY", "MYSQL", "CLUSTER"]

/-- Database-level grants list, `clickhouse_grants.py` lines 250-253. -/
def database_level_grants : List String :=
  ["CREATE DATABASE", "DROP DATABASE"]

/-- Table-level grants list, `clickhouse_grants.py` lines 255-280. -/
def table_level_grants : List String :=
  ["ALL", "SELECT", "SHOW", "dictGet", "INSERT", "UPDATE", "DELETE", "ALTER", "ALTER TABLE",
   "ALTER COLUMN", "ALTER CONSTRAINT", "ALTER INDEX", "ALTER VIEW", "ALTER TTL", "CREATE",
   "CREATE TABLE", "CREATE VIEW", "CREATE DICTIONARY", "DROP", "DROP TABLE", "DROP VIEW",
   "DROP DICTIONARY", "TRUNCATE", "OPTIMIZE"]

/-- Concatenation of the three grant taxonomies, `clickhouse_grants.py` line 283. -/
def applicable_grants : List String :=
  system_level_grants ++ database_level_grants ++ table_level_grants

/-- Python's `str.upper()` on the ASCII grant names: uppercase every character. -/
def pyUpper (s : String) : String := String.mk (s.data.map Char.toUpper)

/-- Validation error message, `clickhouse_grants.py` line 288. -/
def grantsErrorMsg (grant : String) : String :=
  pyUpper grant ++ " not in applicable grants: " ++ String.intercalate ", " applicable_grants ++ "."

/-- The per-grant validation test, `clickhouse_grants.py` line 287: a grant is
invalid when its upper-cased form is not in `applicable_grants` and it is not the
special-cased mixed-case name `dictGet`. -/
def isInvalidGrant (grant : String) : Bool :=
  !(applicable_grants.contains (pyUpper grant)) && grant != "dictGet"

/-- Validation loop of `grants_func` (lines 285-290): returns the first invalid
grant, mirroring the early `return` in the Python loop. -/
def firstInvalidGrant : List String → Option String
  | [] => none
  | grant :: rest =>
    if isInvalidGrant grant then some grant
    else firstInvalidGrant rest

/-- Result dictionary of `grants_func`: `changed`, `run_queries`, and the optional
`error` / `failed` / `msg` keys the Python code adds on some paths. -/
structure GrantsResult where
  changed : Bool
  run_queries : List String
  error : Option String
  failed : Bool
  msg : Option String

/-- The replace-option clause text of `clickhouse_grants.py` line 295. -/
def replaceClause : String := " WITH REPLACE OPTION"

/-- Whether a rendered statement carries the replace-option clause: the clause is
appended at the end of the statement (line 296), so carrying it means having it as
a suffix of the character data. -/
def hasReplaceClause (s : String) : Bool := replaceClause.data.isSuffixOf s.data

/-- The conditional replace clause, `clickhouse_grants.py` line 295:
present exactly when `replace_grants` is set and both enumeration indices are 0. -/
def grantSubQuery (replace_grants : Bool) (db_idx tb_idx : Nat) : String :=
  if replace_grants && db_idx == 0 && tb_idx == 0 then " WITH REPLACE OPTION" else ""

/-- A rendered GRANT statement, `clickhouse_grants.py` line 296. -/
def grantQuery (grantee grants_joined database table sub_query : String) : String :=
  "GRANT " ++ grants_joined ++ " on " ++ database ++ "." ++ table ++ " to '" ++ grantee ++ "'"
    ++ sub_query

/-- A rendered REVOKE statement, `clickhouse_grants.py` line 299. -/
def revokeQuery (grantee grants_joined database table : String) : String :=
  "REVOKE " ++ grants_joined ++ " on " ++ database ++ "." ++ table ++ " from '" ++ grantee ++ "'"

/-- The nested enumerate loops of `grants_func` (lines 292-300): the
database × table cross product with indices, row-major over databases then tables. -/
def grantsQueryList (grantee : String) (grants_list databases tables : List String)
    (replace_grants revoke_grants : Bool) : List String :=
  databases.enum.flatMap (fun dbp =>
    tables.enum.map (fun tbp =>
      if !revoke_grants then
        grantQuery grantee (String.intercalate ", " grants_list) dbp.2 tbp.2
          (grantSubQuery replace_grants dbp.1 tbp.1)
      else
        revokeQuery grantee (String.intercalate ", " grants_list) dbp.2 tbp.2))

/-- Embedding of `grants_func` (`clickhouse_grants.py` lines 233-308). Validation
failure returns early with `failed` set and an empty `run_queries`; otherwise the
cross-product statements are emitted and `changed` records non-emptiness. -/
def grants_func (grantee : String) (grants_list databases tables : List String)
    (replace_grants revoke_grants : Bool) : GrantsResult :=
  match firstInvalidGrant grants_list with
  | some grant =>
    { changed := false, run_queries := [], error := some (grantsErrorMsg grant),
      failed := true, msg := none }
  | none =>
    let query_list := grantsQueryList grantee grants_list databases tables
      replace_grants revoke_grants
    if query_list.isEmpty then
      { changed := false, run_queries := query_list, error := none, failed := false, msg := none }
    else
      { changed := true, run_queries := query_list, error := none, failed := false,
        msg := some "GRANTS EXECUTED" }

/-- Observed server state consumed by the role functions: whether the grantee
exists in `system.users`, and the `granted_role_name` rows of `system.role_grants`. -/
structure RolesObserved where
  userExists : Bool
  serverRoles : List String

/-- Result dictionary of `grant_roles_func` (the fields the claims are about). -/
structure RolesResult where
  changed : Bool
  run_queries : List String
  user_roles : List String
  user_has_roles : Bool

/-- Embedding of `get_user_roles` (lines 168-179): fails when the grantee does not
exist, otherwise returns the held roles and whether every desired role is held. -/
def get_user_roles (obs : RolesObserved) (grantee : String) (roles_list : List String) :
    Except String (List String × Bool) :=
  if !obs.userExists then
    Except.error ("'" ++ grantee ++ "' user does not exist")
  else
    Except.ok (obs.serverRoles, roles_list.all (fun role => obs.serverRoles.contains role))

/-- The revoke loop of `grant_roles_func` (lines 200-204): one REVOKE statement per
desired role that is currently held, in desired-list order. -/
def revokeRoleQueries (grantee : String) (user_roles : List String) : List String → List String
  | [] => []
  | role :: rest =>
    (if user_roles.contains role then ["REVOKE " ++ role ++ " from '" ++ grantee ++ "'"] else [])
      ++ revokeRoleQueries grantee user_roles rest

/-- The role-creation loop of `grant_roles_func` (lines 209-211): one CREATE ROLE
statement per role in the desired list. -/
def createRoleQueries : List String → List String
  | [] => []
  | role :: rest => ("CREATE ROLE IF NOT EXISTS " ++ role) :: createRoleQueries rest

/-- The query accumulation of `grant_roles_func` (lines 199-221): the revoke loop,
or else the optional role-creation loop followed by the replace-mode or additive
GRANT statement. -/
def rolesQueryList (user_roles : List String) (grantee : String) (roles_list : List String)
    (roles_init replace_grants revoke_grants user_has_roles : Bool) : List String :=
  if revoke_grants then
    revokeRoleQueries grantee user_roles roles_list
  else
    (if roles_init && !user_has_roles then createRoleQueries roles_list else [])
      ++
    (if replace_grants then
      ["GRANT " ++ String.intercalate ", " roles_list ++ " to '" ++ grantee
        ++ "' WITH REPLACE OPTION"]
    else if !user_has_roles then
      ["GRANT " ++ String.intercalate ", " roles_list ++ " to '" ++ grantee ++ "'"]
    else [])

/-- Embedding of `grant_roles_func` (`clickhouse_grants.py` lines 182-230). -/
def grant_roles_func (obs : RolesObserved) (grantee : String) (roles_list : List String)
    (roles_init replace_grants revoke_grants : Bool) : Except String RolesResult :=
  match get_user_roles obs grantee roles_list with
  | Except.error e => Except.error e
  | Except.ok (user_roles, user_has_roles) =>
    let query_list := rolesQueryList user_roles grantee roles_list
      roles_init replace_grants revoke_grants user_has_roles
    Except.ok { changed := !query_list.isEmpty, run_queries := query_list,
                user_roles := user_roles, user_has_roles := user_has_roles }

/-- Outcome of the mode dispatch in `main` (lines 368-390): either an immediate
`fail_json` (no reconciliation function is ever invoked, so zero statements are
executed) or entry into exactly one of the two reconciliation paths. -/
inductive MainOutcome where
  | failJson : String → MainOutcome
  | rolesPath : MainOutcome
  | grantsPath : MainOutcome

/-- Message of the both-modes configuration failure, line 369. -/
def bothModesMsg : String := "Only one of parameters 'grant_roles' OR 'grants' must be defined."

/-- Message of the neither-mode configuration failure, line 390. -/
def noModeMsg : String := "No any grants or roles are defined"

/-- Embedding of the `main` dispatch (lines 368-390); Python list truthiness is
non-emptiness. -/
def mainDispatch (roles_list grants_list : List String) : MainOutcome :=
  if !roles_list.isEmpty && !grants_list.isEmpty then MainOutcome.failJson bothModesMsg
  else if !roles_list.isEmpty then MainOutcome.rolesPath
  else if !grants_list.isEmpty then MainOutcome.grantsPath
  else MainOutcome.failJson noModeMsg

/-- Embedding of the privilege path of `main` with the cluster parameters included:
`main` reads `on_cluster` and `cluster_name` (lines 361-362) but never passes them to
`grants_func` (line 382), so the result ignores both arguments — exactly as the
source does. -/
def main_grants_result (grantee : String) (grants_list databases tables : List String)
    (replace_grants revoke_grants on_cluster : Bool) (cluster_name : String) : GrantsResult :=
  grants_func grantee grants_list databases tables replace_grants revoke_grants

/-- Modelled from the spec: the server-side effect of executing the statements a
role reconciliation emits is not part of the repository (it lives in the ClickHouse
server). Following the spec's glossary, executing the emitted GRANT makes every
listed role held, and executing the emitted REVOKEs removes the desired roles from
the held set; when nothing was emitted (`changed = false`) the state is unchanged. -/
def rolesAfterExecution (user_roles roles_list : List String) (revoke_grants changed : Bool) :
    List String :=
  if !changed then user_roles
  else if revoke_grants then user_roles.filter (fun r => !roles_list.contains r)
  else user_roles ++ roles_list

end CHGrants

namespace CHUsers

/-- Observed server state consumed by `clickhouse_users.py`: existence of the user,
the `system.quotas` rows naming quotas whose apply list contains the user, the
apply list of the named quota (`none` when the query returns no row), the
`inherit_profile` rows, and the `granted_role_name` rows. -/
structure UsersObserved where
  userExists : Bool
  userQuotaNames : List String
  quotaApplyRow : Option (List String)
  inheritProfiles : List String
  serverRoles : List String

/-- Embedding of `ch_user_roles` (lines 136-144). -/
def ch_user_roles (obs : UsersObserved) (roles : List String) : List String × Bool :=
  (obs.serverRoles, roles.all (fun role => obs.serverRoles.contains role))

/-- Embedding of `ch_user_profiles` (lines 147-155). -/
def ch_user_profiles (obs : UsersObserved) (profile : String) : List String × Bool :=
  (obs.inheritProfiles, obs.inheritProfiles.contains profile)

/-- Embedding of `ch_user_quotas` (lines 158-172): returns the quotas applied to the
user, whether the named quota is among them, and the named quota's apply list with
the user appended ( `[]` then `[user]` when the quota query returned no row). -/
def ch_user_quotas (obs : UsersObserved) (user quota : String) :
    List String × Bool × List String :=
  let user_quotas := obs.userQuotaNames
  let quota_applied_users := obs.quotaApplyRow.getD []
  let user_has_quota := user_quotas.contains quota
  (user_quotas, user_has_quota, quota_applied_users ++ [user])

/-- Result dictionary of `create_update_user` (the fields the claims are about). -/
structure UsersResult where
  changed : Bool
  run_queries : List String
  user_exists : Bool

/-- The CREATE USER statement, `clickhouse_users.py` line 188. -/
def createUserQuery (user password : String) : String :=
  "CREATE USER " ++ user ++ " IDENTIFIED WITH sha256_password BY '" ++ password ++ "'"

/-- The ALTER QUOTA statement, `clickhouse_users.py` line 197. -/
def alterQuotaQuery (quota : String) (quota_apply_users : List String) : String :=
  "ALTER QUOTA " ++ quota ++ " to " ++ String.intercalate ", " quota_apply_users

/-- The ALTER USER ... SETTINGS PROFILE statement, `clickhouse_users.py` line 205. -/
def alterProfileQuery (user profile : String) : String :=
  "ALTER USER " ++ user ++ " SETTINGS PROFILE " ++ profile

/-- The GRANT roles statement, `clickhouse_users.py` line 213 (grantee unquoted here). -/
def grantUserRolesQuery (user : String) (roles : List String) : String :=
  "GRANT " ++ String.intercalate ", " roles ++ " to " ++ user

/-- Embedding of `create_update_user` (`clickhouse_users.py` lines 175-219): the four
independently gated concerns append to `query_list` in source order — existence,
quota, profile, roles. -/
def create_update_user (obs : UsersObserved) (user password : String) (roles : List String)
    (quota profile : String) : UsersResult :=
  let user_exists := obs.userExists
  let create_queries := if !user_exists then [createUserQuery user password] else []
  let quota_queries :=
    if quota != "" then
      let quotas := ch_user_quotas obs user quota
      if !quotas.2.1 then [alterQuotaQuery quota quotas.2.2] else []
    else []
  let profile_queries :=
    if profile != "" then
      let profiles := ch_user_profiles obs profile
      if !profiles.2 then [alterProfileQuery user profile] else []
    else []
  let roles_queries :=
    if !roles.isEmpty then
      let rolesObs := ch_user_roles obs roles
      if !rolesObs.2 then [grantUserRolesQuery user roles] else []
    else []
  let query_list := create_queries ++ quota_queries ++ profile_queries ++ roles_queries
  { changed := !query_list.isEmpty, run_queries := query_list, user_exists := user_exists }

end CHUsers

/-! Helper lemmas. -/

/-- Two lists with distinct prefixes of length `n` are distinct, whatever follows. -/
lemma take_ne_imp_append_ne {α : Type} (n : Nat) (p₁ p₂ x y : List α)
    (h1 : n ≤ p₁.length) (h2 : n ≤ p₂.length) (hne : p₁.take n ≠ p₂.take n) :
    p₁ ++ x ≠ p₂ ++ y := by
  intro he
  apply hne
  rw [← List.take_append_of_le_length h1, ← List.take_append_of_le_length h2, he]

namespace CHGrants

/-- Membership form of the Python `in` test embedded as `List.contains`. -/
lemma contains_mem_iff {l : List String} {a : String} : l.contains a = true ↔ a ∈ l :=
  List.elem_iff

/-- A statement ending in the replace clause carries it. -/
lemma hasReplaceClause_append (X : String) : hasReplaceClause (X ++ replaceClause) = true := by
  unfold hasReplaceClause
  rw [List.isSuffixOf_iff_suffix, String.data_append]
  exact List.suffix_append _ _

/-- A statement ending in a single-quote character cannot carry the replace clause,
whose last character differs. -/
lemma clause_not_suffix_of_quote (X : String) : hasReplaceClause (X ++ "'") = false := by
  unfold hasReplaceClause
  rw [Bool.eq_false_iff]
  intro hcon
  rw [List.isSuffixOf_iff_suffix] at hcon
  obtain ⟨u, hu⟩ := hcon
  have hlast := congrArg List.getLast? hu
  rw [List.getLast?_append, String.data_append, List.getLast?_append] at hlast
  have e1 : replaceClause.data.getLast? = some 'N' := by decide
  have h5 : (("'" : String).data).getLast?.isSome := by decide
  obtain ⟨q, hq⟩ := Option.isSome_iff_exists.mp h5
  have e2 : q ≠ 'N' := by
    intro he
    rw [he] at hq
    revert hq
    decide
  rw [e1, Option.or_some, hq, Option.or_some] at hlast
  exact e2 (Option.some.inj hlast.symm)

/-- With `replace_grants` unset the conditional clause is always empty. -/
lemma grantSubQuery_false (i j : Nat) : grantSubQuery false i j = "" := by
  simp [grantSubQuery]

/-- Past the first database (index ≥ 1) the conditional clause is empty. -/
lemma grantSubQuery_pos_left (rep : Bool) (i j : Nat) : grantSubQuery rep (i + 1) j = "" := by
  simp [grantSubQuery]

/-- Past the first table (index ≥ 1) the conditional clause is empty. -/
lemma grantSubQuery_pos_right (rep : Bool) (i j : Nat) : grantSubQuery rep i (j + 1) = "" := by
  simp [grantSubQuery]

/-- At the first cross-product position with `replace_grants` set, the clause appears. -/
lemma grantSubQuery_true_zero : grantSubQuery true 0 0 = replaceClause := rfl

/-- A GRANT statement with no sub-query clause does not carry the replace clause. -/
lemma hasReplaceClause_grantQuery_empty (g j d t : String) :
    hasReplaceClause (grantQuery g j d t "") = false := by
  unfold grantQuery
  rw [String.append_empty]
  exact clause_not_suffix_of_quote _

/-- A GRANT statement whose sub-query is the replace clause carries it. -/
lemma hasReplaceClause_grantQuery_clause (g j d t : String) :
    hasReplaceClause (grantQuery g j d t replaceClause) = true := by
  unfold grantQuery
  exact hasReplaceClause_append _

/-- Inner enumerate loop: when the clause is empty at every table index reachable
from start index `m`, the indexed row equals the plain row. -/
lemma gql_row_aux (g joined d : String) (rep : Bool) (i : Nat) :
    ∀ (m : Nat) (tbs : List String), (∀ jj, m ≤ jj → grantSubQuery rep i jj = "") →
      (List.enumFrom m tbs).map
          (fun tbp => grantQuery g joined d tbp.2 (grantSubQuery rep i tbp.1)) =
        tbs.map (fun t => grantQuery g joined d t "") := by
  intro m tbs
  induction tbs generalizing m with
  | nil => intro _; rfl
  | cons b bs ih =>
    intro h
    rw [List.enumFrom_cons, List.map_cons, List.map_cons, h m (Nat.le_refl m),
      ih (m + 1) (fun jj hjj => h jj (Nat.le_of_succ_le hjj))]

/-- Outer enumerate loop: when the clause is empty at every database index reachable
from start index `n`, the indexed cross product equals the plain cross product. -/
lemma gql_flatMap_aux (g joined : String) (rep : Bool) :
    ∀ (n : Nat) (dbs tbs : List String), (∀ ii jj, n ≤ ii → grantSubQuery rep ii jj = "") →
      (List.enumFrom n dbs).flatMap
          (fun dbp => (List.enumFrom 0 tbs).map
            (fun tbp => grantQuery g joined dbp.2 tbp.2 (grantSubQuery rep dbp.1 tbp.1))) =
        dbs.flatMap (fun d => tbs.map (fun t => grantQuery g joined d t "")) := by
  intro n dbs
  induction dbs generalizing n with
  | nil => intro _ _; rfl
  | cons a as ih =>
    intro tbs h
    rw [List.enumFrom_cons, List.flatMap_cons, List.flatMap_cons,
      gql_row_aux g joined a rep n 0 tbs (fun jj _ => h n jj (Nat.le_refl n)),
      ih (n + 1) tbs (fun ii jj hii => h ii jj (Nat.le_of_succ_le hii))]

/-- With `replace_grants` and `revoke_grants` unset, the emitted statements are the
plain database × table cross product, row-major over databases then tables. -/
lemma grantsQueryList_plain (g : String) (gl dbs tbs : List String) :
    grantsQueryList g gl dbs tbs false false =
      dbs.flatMap (fun d => tbs.map (fun t =>
        grantQuery g (String.intercalate ", " gl) d t "")) := by
  have haux := gql_flatMap_aux g (String.intercalate ", " gl) false 0 dbs tbs
    (fun ii jj _ => grantSubQuery_false ii jj)
  calc grantsQueryList g gl dbs tbs false false
      = (List.enumFrom 0 dbs).flatMap
          (fun dbp => (List.enumFrom 0 tbs).map
            (fun tbp => grantQuery g (String.intercalate ", " gl) dbp.2 tbp.2
              (grantSubQuery false dbp.1 tbp.1))) := by
        simp [grantsQueryList, List.enum]
    _ = _ := haux

/-- With `replace_grants` set and `revoke_grants` unset, the emitted statements are
the cross product with the replace clause attached exactly to the statement of the
first database and first table. -/
lemma grantsQueryList_replace (g : String) (gl : List String) (d t : String)
    (ds ts : List String) :
    grantsQueryList g gl (d :: ds) (t :: ts) true false =
      grantQuery g (String.intercalate ", " gl) d t replaceClause
        :: (ts.map (fun t' => grantQuery g (String.intercalate ", " gl) d t' "")
            ++ ds.flatMap (fun d' => (t :: ts).map (fun t' =>
                 grantQuery g (String.intercalate ", " gl) d' t' ""))) := by
  have hrow : ∀ jj, 1 ≤ jj → grantSubQuery true 0 jj = "" := by
    intro jj hjj
    cases jj with
    | zero => exact absurd hjj (by decide)
    | succ k => exact grantSubQuery_pos_right true 0 k
  have houter : ∀ ii jj, 1 ≤ ii → grantSubQuery true ii jj = "" := by
    intro ii jj hii
    cases ii with
    | zero => exact absurd hii (by decide)
    | succ k => exact grantSubQuery_pos_left true k jj
  calc grantsQueryList g gl (d :: ds) (t :: ts) true false
      = (List.enumFrom 0 (d :: ds)).flatMap
          (fun dbp => (List.enumFrom 0 (t :: ts)).map
            (fun tbp => grantQuery g (String.intercalate ", " gl) dbp.2 tbp.2
              (grantSubQuery true dbp.1 tbp.1))) := by
        simp [grantsQueryList, List.enum]
    _ = _ := by
        rw [List.enumFrom_cons, List.flatMap_cons]
        simp only [Nat.zero_add]
        rw [gql_flatMap_aux g (String.intercalate ", " gl) true 1 ds (t :: ts) houter]
        rw [List.enumFrom_cons, List.map_cons]
        simp only [Nat.zero_add]
        rw [grantSubQuery_true_zero,
          gql_row_aux g (String.intercalate ", " gl) d true 0 1 ts hrow,
          List.cons_append]

/-- When validation passes, `grants_func` returns the cross-product statement list. -/
lemma grants_func_run_queries_valid (g : String) (gl dbs tbs : List String) (rep rev : Bool)
    (h : firstInvalidGrant gl = none) :
    (grants_func g gl dbs tbs rep rev).run_queries =
      grantsQueryList g gl dbs tbs rep rev := by
  unfold grants_func
  rw [h]
  dsimp only
  split <;> rfl

/-- The cross product emits exactly one statement per (database, table) pair, in
every mode. -/
lemma grantsQueryList_length (g : String) (gl dbs tbs : List String) (rep rev : Bool) :
    (grantsQueryList g gl dbs tbs rep rev).length = dbs.length * tbs.length := by
  have haux : ∀ (n : Nat) (ds : List String),
      ((List.enumFrom n ds).flatMap (fun dbp => (List.enumFrom 0 tbs).map (fun tbp =>
        if !rev then
          grantQuery g (String.intercalate ", " gl) dbp.2 tbp.2
            (grantSubQuery rep dbp.1 tbp.1)
        else
          revokeQuery g (String.intercalate ", " gl) dbp.2 tbp.2))).length
      = ds.length * tbs.length := by
    intro n ds
    induction ds generalizing n with
    | nil => simp
    | cons a as ih =>
      rw [List.enumFrom_cons, List.flatMap_cons, List.length_append, List.length_map,
        ih (n + 1), List.enumFrom_length, List.length_cons]
      ring
  calc (grantsQueryList g gl dbs tbs rep rev).length
      = ((List.enumFrom 0 dbs).flatMap (fun dbp => (List.enumFrom 0 tbs).map (fun tbp =>
          if !rev then
            grantQuery g (String.intercalate ", " gl) dbp.2 tbp.2
              (grantSubQuery rep dbp.1 tbp.1)
          else
            revokeQuery g (String.intercalate ", " gl) dbp.2 tbp.2))).length := by
        simp only [grantsQueryList, List.enum]
    _ = dbs.length * tbs.length := haux 0 dbs

/-- Specification of the validation loop: when some grant is invalid, the loop
returns the first invalid one, every grant before it being valid. -/
lemma firstInvalidGrant_spec (gl : List String) (h : ∃ x ∈ gl, isInvalidGrant x = true) :
    ∃ g₀ pre post, gl = pre ++ g₀ :: post ∧ (∀ x ∈ pre, isInvalidGrant x = false) ∧
      isInvalidGrant g₀ = true ∧ firstInvalidGrant gl = some g₀ := by
  induction gl with
  | nil => obtain ⟨x, hx, _⟩ := h; exact absurd hx (List.not_mem_nil x)
  | cons a as ih =>
    by_cases ha : isInvalidGrant a = true
    · exact ⟨a, [], as, rfl, by intro x hx; exact absurd hx (List.not_mem_nil x), ha,
        by simp [firstInvalidGrant, ha]⟩
    · have ha' : isInvalidGrant a = false := Bool.eq_false_iff.mpr ha
      obtain ⟨x, hx, hxi⟩ := h
      have hxas : x ∈ as := by
        rcases List.mem_cons.mp hx with hxa | hxas
        · exact absurd (hxa ▸ hxi) ha
        · exact hxas
      obtain ⟨g₀, pre, post, heq, hpre, hg₀, hfind⟩ := ih ⟨x, hxas, hxi⟩
      refine ⟨g₀, a :: pre, post, by rw [heq, List.cons_append], ?_, hg₀, ?_⟩
      · intro y hy
        rcases List.mem_cons.mp hy with hya | hyp
        · exact hya ▸ ha'
        · exact hpre y hyp
      · simp [firstInvalidGrant, ha', hfind]

/-- The revoke loop emits exactly the REVOKE statements of the desired roles that
are currently held, in desired-list order. -/
lemma revokeRoleQueries_eq (g : String) (H : List String) (R : List String) :
    revokeRoleQueries g H R = (R.filter (fun role => H.contains role)).map
      (fun role => "REVOKE " ++ role ++ " from '" ++ g ++ "'") := by
  induction R with
  | nil => rfl
  | cons a as ih =>
    by_cases ham : a ∈ H
    · simp [revokeRoleQueries, List.filter_cons, ham, ih]
    · simp [revokeRoleQueries, List.filter_cons, ham, ih]

/-- The role-creation loop emits one CREATE ROLE statement per desired role. -/
lemma createRoleQueries_eq (R : List String) :
    createRoleQueries R = R.map (fun role => "CREATE ROLE IF NOT EXISTS " ++ role) := by
  induction R with
  | nil => rfl
  | cons a as ih => simp [createRoleQueries, ih]

/-- When the grantee exists, `grant_roles_func` succeeds with the accumulated query
list and the observed role state. -/
lemma grant_roles_func_ok (H : List String) (g : String) (R : List String)
    (init rep rev : Bool) :
    grant_roles_func ⟨true, H⟩ g R init rep rev = Except.ok
      { changed := !(rolesQueryList H g R init rep rev
          (R.all (fun role => H.contains role))).isEmpty,
        run_queries := rolesQueryList H g R init rep rev (R.all (fun role => H.contains role)),
        user_roles := H,
        user_has_roles := R.all (fun role => H.contains role) } := rfl

end CHGrants

namespace CHUsers

/-- An ALTER QUOTA statement is never equal to a CREATE USER statement. -/
lemma alterQuotaQuery_ne_createUserQuery (q : String) (ms : List String) (u p : String) :
    alterQuotaQuery q ms ≠ createUserQuery u p := by
  intro he
  have hd := congrArg String.data he
  simp only [alterQuotaQuery, createUserQuery, String.data_append, List.append_assoc] at hd
  exact take_ne_imp_append_ne 1 _ _ _ _ (by decide) (by decide) (by decide) hd

/-- An ALTER QUOTA statement is never equal to an ALTER USER ... SETTINGS PROFILE
statement (they differ at the seventh character). -/
lemma alterQuotaQuery_ne_alterProfileQuery (q : String) (ms : List String) (u p : String) :
    alterQuotaQuery q ms ≠ alterProfileQuery u p := by
  intro he
  have hd := congrArg String.data he
  simp only [alterQuotaQuery, alterProfileQuery, String.data_append, List.append_assoc] at hd
  exact take_ne_imp_append_ne 7 _ _ _ _ (by decide) (by decide) (by decide) hd

/-- An ALTER QUOTA statement is never equal to a GRANT roles statement. -/
lemma alterQuotaQuery_ne_grantUserRolesQuery (q : String) (ms : List String) (u : String)
    (rs : List String) :
    alterQuotaQuery q ms ≠ grantUserRolesQuery u rs := by
  intro he
  have hd := congrArg String.data he
  simp only [alterQuotaQuery, grantUserRolesQuery, String.data_append, List.append_assoc] at hd
  exact take_ne_imp_append_ne 1 _ _ _ _ (by decide) (by decide) (by decide) hd

/-- Two ALTER QUOTA statements for the same quota agree on their rendered member
list when the statements are equal. -/
lemma alterQuotaQuery_members_inj (q : String) (ms₁ ms₂ : List String)
    (h : alterQuotaQuery q ms₁ = alterQuotaQuery q ms₂) :
    String.intercalate ", " ms₁ = String.intercalate ", " ms₂ := by
  unfold alterQuotaQuery at h
  have hd := congrArg String.data h
  rw [String.data_append, String.data_append] at hd
  exact String.ext (List.append_cancel_left hd)

/-- Unfolded form of the query list of `create_update_user`: the four independently
gated components in source order. -/
lemma create_update_user_queries (obs : UsersObserved) (user password : String)
    (roles : List String) (quota profile : String) :
    (create_update_user obs user password roles quota profile).run_queries =
      (if !obs.userExists then [createUserQuery user password] else [])
      ++ (if quota != "" then
            (if !(obs.userQuotaNames.contains quota) then
              [alterQuotaQuery quota (obs.quotaApplyRow.getD [] ++ [user])] else [])
          else [])
      ++ (if profile != "" then
            (if !(obs.inheritProfiles.contains profile) then
              [alterProfileQuery user profile] else [])
          else [])
      ++ (if !roles.isEmpty then
            (if !(roles.all (fun role => obs.serverRoles.contains role)) then
              [grantUserRolesQuery user roles] else [])
          else []) := rfl

end CHUsers

/-! Claim theorems. -/

namespace CHGrants

/-- Claim C6: Exclusive-mode enforcement — supplying both a non-empty desired role set and
a non-empty desired privilege set makes `main` dispatch to the configuration
failure (an immediate `fail_json`, before any reconciliation function runs, so zero
statements are executed); supplying neither is likewise a configuration failure;
and a reconciliation path runs exactly when exactly one of the two sets is
non-empty. -/
theorem c6_exclusive_mode (roles_list grants_list : List String) :
    ((roles_list ≠ [] ∧ grants_list ≠ []) →
      mainDispatch roles_list grants_list = MainOutcome.failJson bothModesMsg)
  ∧ ((roles_list = [] ∧ grants_list = []) →
      mainDispatch roles_list grants_list = MainOutcome.failJson noModeMsg)
  ∧ ((mainDispatch roles_list grants_list = MainOutcome.rolesPath ∨
      mainDispatch roles_list grants_list = MainOutcome.grantsPath) ↔
      ((roles_list ≠ [] ∧ grants_list = []) ∨ (roles_list = [] ∧ grants_list ≠ []))) := by
  cases roles_list with
  | nil =>
    cases grants_list with
    | nil => refine ⟨?_, ?_, ?_⟩ <;> simp [mainDispatch]
    | cons b bs => refine ⟨?_, ?_, ?_⟩ <;> simp [mainDispatch]
  | cons a as =>
    cases grants_list with
    | nil => refine ⟨?_, ?_, ?_⟩ <;> simp [mainDispatch]
    | cons b bs => refine ⟨?_, ?_, ?_⟩ <;> simp [mainDispatch]

/-- Witness for C6: both modes supplied, and neither mode supplied, both hit the
configuration failure. -/
theorem c6_exclusive_mode_witness :
    mainDispatch ["r1"] ["select"] = MainOutcome.failJson bothModesMsg ∧
    mainDispatch [] [] = MainOutcome.failJson noModeMsg :=
  ⟨(c6_exclusive_mode ["r1"] ["select"]).1 ⟨List.cons_ne_nil _ _, List.cons_ne_nil _ _⟩,
   (c6_exclusive_mode [] []).2.1 ⟨rfl, rfl⟩⟩

/-- Claim C8: Deterministic cross-product ordering — with valid privileges and both
`revoke_grants` and `replace_grants` unset, the emitted statements enumerate the
database × table cross product in row-major order over databases then tables, one
GRANT statement per pair. -/
theorem c8_cross_product_order (g : String) (gl dbs tbs : List String)
    (hval : firstInvalidGrant gl = none) :
    (grants_func g gl dbs tbs false false).run_queries =
      dbs.flatMap (fun d => tbs.map (fun t =>
        grantQuery g (String.intercalate ", " gl) d t ""))
    ∧ (∀ rep rev, (grants_func g gl dbs tbs rep rev).run_queries.length =
        dbs.length * tbs.length) := by
  constructor
  · rw [grants_func_run_queries_valid g gl dbs tbs false false hval, grantsQueryList_plain]
  · intro rep rev
    rw [grants_func_run_queries_valid g gl dbs tbs rep rev hval, grantsQueryList_length]

/-- Witness for C8 at the spec's concrete example: databases `d1`,`d2`, tables
`t1`,`t2`, privileges `select` yield exactly four statements in the order
d1.t1, d1.t2, d2.t1, d2.t2. -/
theorem c8_cross_product_order_witness :
    (grants_func "u" ["select"] ["d1", "d2"] ["t1", "t2"] false false).run_queries =
      ["GRANT select on d1.t1 to 'u'", "GRANT select on d1.t2 to 'u'",
       "GRANT select on d2.t1 to 'u'", "GRANT select on d2.t2 to 'u'"] ∧
    (grants_func "u" ["select"] ["d1", "d2"] ["t1", "t2"] false false).run_queries.length = 4 :=
  ⟨Eq.trans (c8_cross_product_order "u" ["select"] ["d1", "d2"] ["t1", "t2"] rfl).1 rfl,
   (c8_cross_product_order "u" ["select"] ["d1", "d2"] ["t1", "t2"] rfl).2 false false⟩

/-- Claim C2: Replace single-shot — for a privilege-grant reconciliation (revoke unset)
over at least two scope targets with `replace_grants` set and a validated privilege
set, exactly one emitted statement carries the replace clause, namely the statement
of the first (database, table) pair in row-major order; with `replace_grants`
unset, no emitted statement carries the clause. -/
theorem c2_replace_single_shot (g : String) (gl : List String) (d t : String)
    (ds ts : List String) (hval : firstInvalidGrant gl = none)
    (hN : 2 ≤ (d :: ds).length * (t :: ts).length) :
    ((grants_func g gl (d :: ds) (t :: ts) true false).run_queries.countP hasReplaceClause = 1
      ∧ (grants_func g gl (d :: ds) (t :: ts) true false).run_queries.head? =
          some (grantQuery g (String.intercalate ", " gl) d t replaceClause))
    ∧ (grants_func g gl (d :: ds) (t :: ts) false false).run_queries.countP
        hasReplaceClause = 0 := by
  constructor
  · rw [grants_func_run_queries_valid g gl (d :: ds) (t :: ts) true false hval,
      grantsQueryList_replace]
    constructor
    · rw [List.countP_cons]
      have htail : (ts.map (fun t' => grantQuery g (String.intercalate ", " gl) d t' "")
          ++ ds.flatMap (fun d' => (t :: ts).map (fun t' =>
               grantQuery g (String.intercalate ", " gl) d' t' ""))).countP
            hasReplaceClause = 0 := by
        rw [List.countP_eq_zero]
        intro s hs
        rcases List.mem_append.mp hs with hs1 | hs2
        · obtain ⟨t', _, rfl⟩ := List.mem_map.mp hs1
          simp [hasReplaceClause_grantQuery_empty]
        · obtain ⟨d', _, hd'⟩ := List.mem_flatMap.mp hs2
          obtain ⟨t', _, rfl⟩ := List.mem_map.mp hd'
          simp [hasReplaceClause_grantQuery_empty]
      rw [htail, hasReplaceClause_grantQuery_clause]
      rfl
    · rfl
  · rw [grants_func_run_queries_valid g gl (d :: ds) (t :: ts) false false hval,
      grantsQueryList_plain, List.countP_eq_zero]
    intro s hs
    obtain ⟨d', _, hd'⟩ := List.mem_flatMap.mp hs
    obtain ⟨t', _, rfl⟩ := List.mem_map.mp hd'
    simp [hasReplaceClause_grantQuery_empty]

/-- Witness for C2 at four scope targets: exactly the first of the four statements
carries the replace clause; without the replace flag none does. -/
theorem c2_replace_single_shot_witness :
    ((grants_func "u" ["select"] ["d1", "d2"] ["t1", "t2"] true false).run_queries.countP
        hasReplaceClause = 1
      ∧ (grants_func "u" ["select"] ["d1", "d2"] ["t1", "t2"] true false).run_queries.head? =
          some (grantQuery "u" (String.intercalate ", " ["select"]) "d1" "t1" replaceClause))
    ∧ (grants_func "u" ["select"] ["d1", "d2"] ["t1", "t2"] false false).run_queries.countP
        hasReplaceClause = 0 :=
  c2_replace_single_shot "u" ["select"] "d1" "t1" ["d2"] ["t2"] rfl (by decide)

/-- Claim C5: Privilege validation aborts all mutation — when the requested privilege
list contains an invalid name, `grants_func` fails with the error message naming
the first offending privilege (upper-cased) together with the allowed set, with an
empty executed-statements list, `changed` false and `failed` set; every privilege
before the offending one is valid (validation short-circuits), and no scope
processing or statement emission occurs. -/
theorem c5_validation_aborts (g : String) (gl dbs tbs : List String) (rep rev : Bool)
    (h : ∃ x ∈ gl, isInvalidGrant x = true) :
    ∃ g₀ pre post, gl = pre ++ g₀ :: post ∧ (∀ x ∈ pre, isInvalidGrant x = false) ∧
      isInvalidGrant g₀ = true ∧
      grants_func g gl dbs tbs rep rev =
        { changed := false, run_queries := [], error := some (grantsErrorMsg g₀),
          failed := true, msg := none } := by
  obtain ⟨g₀, pre, post, heq, hpre, hg₀, hfind⟩ := firstInvalidGrant_spec gl h
  refine ⟨g₀, pre, post, heq, hpre, hg₀, ?_⟩
  unfold grants_func
  rw [hfind]

/-- Witness for C5: requesting the unknown privilege `badpriv` aborts with the
validation error and no statements. -/
theorem c5_validation_aborts_witness :
    ∃ g₀ pre post, (["badpriv"] : List String) = pre ++ g₀ :: post ∧
      (∀ x ∈ pre, isInvalidGrant x = false) ∧ isInvalidGrant g₀ = true ∧
      grants_func "u" ["badpriv"] ["d1"] ["t1"] false false =
        { changed := false, run_queries := [], error := some (grantsErrorMsg g₀),
          failed := true, msg := none } :=
  c5_validation_aborts "u" ["badpriv"] ["d1"] ["t1"] false false
    ⟨"badpriv", List.mem_singleton.mpr rfl, by decide⟩

/-- Claim C7: Role revoke semantics — with `revoke_grants` set, a REVOKE statement is
emitted exactly for each desired role that is currently held (in desired-list
order); desired roles not held produce no statement and no error; when none of the
desired roles are held the call yields `changed = false` and no statements. -/
theorem c7_role_revoke (g : String) (R H : List String) (init rep : Bool) :
    ∃ r, grant_roles_func ⟨true, H⟩ g R init rep true = Except.ok r ∧
      r.run_queries = (R.filter (fun role => H.contains role)).map
        (fun role => "REVOKE " ++ role ++ " from '" ++ g ++ "'") ∧
      ((∀ role ∈ R, role ∉ H) → r.changed = false ∧ r.run_queries = []) := by
  have hq : rolesQueryList H g R init rep true (R.all fun role => H.contains role) =
      (R.filter (fun role => H.contains role)).map
        (fun role => "REVOKE " ++ role ++ " from '" ++ g ++ "'") :=
    revokeRoleQueries_eq g H R
  refine ⟨_, grant_roles_func_ok H g R init rep true, hq, fun hnone => ?_⟩
  have hfil : R.filter (fun role => H.contains role) = [] := by
    rw [List.filter_eq_nil_iff]
    intro a ha hc
    exact hnone a ha (contains_mem_iff.mp hc)
  have hnil : rolesQueryList H g R init rep true (R.all fun role => H.contains role) = [] := by
    rw [hq, hfil]
    rfl
  exact ⟨by rw [hnil]; rfl, hnil⟩

/-- Witness for C7: revoking `r1` from a grantee that holds no roles yields no
change and no statements. -/
theorem c7_role_revoke_witness :
    ∃ r, grant_roles_func ⟨true, []⟩ "u" ["r1"] false false true = Except.ok r ∧
      r.changed = false ∧ r.run_queries = [] := by
  obtain ⟨r, h1, _, h3⟩ := c7_role_revoke "u" ["r1"] [] false false
  have h4 := h3 (fun role _ hmem => List.not_mem_nil role hmem)
  exact ⟨r, h1, h4.1, h4.2⟩

end CHGrants

namespace CHGrants

/-- Counterexample to C3 as stated: the grantee already holds `r1`, the desired set
is `r1, r2` with the role-creation flag set, yet the emitted statements include
`CREATE ROLE IF NOT EXISTS r1` for the already-held role — the creation loop
(lines 209-211) iterates over the whole desired list, not only the missing roles. -/
theorem c3_counterexample :
    grant_roles_func ⟨true, ["r1"]⟩ "u" ["r1", "r2"] true false false = Except.ok
      { changed := true,
        run_queries := ["CREATE ROLE IF NOT EXISTS r1", "CREATE ROLE IF NOT EXISTS r2",
          "GRANT r1, r2 to 'u'"],
        user_roles := ["r1"],
        user_has_roles := false } := rfl

/-- Claim C3 amended: with the role-creation flag set, revoke unset and the desired set
not fully held, a CreateRole statement (idempotent `CREATE ROLE IF NOT EXISTS`) is
emitted for every role of the desired set — including roles already held — followed
by the additive GRANT of the full set. -/
theorem c3_create_roles_amended (g : String) (R H : List String)
    (h : R.all (fun role => H.contains role) = false) :
    ∃ r, grant_roles_func ⟨true, H⟩ g R true false false = Except.ok r ∧
      r.run_queries = R.map (fun role => "CREATE ROLE IF NOT EXISTS " ++ role)
        ++ ["GRANT " ++ String.intercalate ", " R ++ " to '" ++ g ++ "'"] := by
  refine ⟨_, grant_roles_func_ok H g R true false false, ?_⟩
  show rolesQueryList H g R true false false (R.all fun role => H.contains role) = _
  rw [h]
  show createRoleQueries R ++ ["GRANT " ++ String.intercalate ", " R ++ " to '" ++ g ++ "'"] = _
  rw [createRoleQueries_eq]

/-- Witness for the amended C3: grantee holds `r1`, desired `r1, r2` — both roles
get a CreateRole statement. -/
theorem c3_create_roles_amended_witness :
    ∃ r, grant_roles_func ⟨true, ["r1"]⟩ "u" ["r1", "r2"] true false false = Except.ok r ∧
      r.run_queries = (["r1", "r2"] : List String).map
          (fun role => "CREATE ROLE IF NOT EXISTS " ++ role)
        ++ ["GRANT " ++ String.intercalate ", " ["r1", "r2"] ++ " to '" ++ "u" ++ "'"] :=
  c3_create_roles_amended "u" ["r1", "r2"] ["r1"] (by decide)

end CHGrants

namespace CHGrants

/-- Auxiliary for C1: the revoke loop emits nothing when no desired role is held. -/
lemma rolesQueryList_revoke_nil (g : String) (R H' : List String) (init rep X : Bool)
    (h : ∀ role ∈ R, role ∉ H') :
    rolesQueryList H' g R init rep true X = [] := by
  show revokeRoleQueries g H' R = []
  rw [revokeRoleQueries_eq,
    List.filter_eq_nil_iff.mpr (fun a ha hc => h a ha (contains_mem_iff.mp hc))]
  rfl

/-- Auxiliary for C1: the additive grant path emits nothing when every desired role
is held. -/
lemma rolesQueryList_grant_nil (g : String) (R H' : List String) (init : Bool)
    (h : R.all (fun role => H'.contains role) = true) :
    rolesQueryList H' g R init false false (R.all (fun role => H'.contains role)) = [] := by
  rw [h]
  simp [rolesQueryList]

/-- Counterexample to C1 as stated: the privilege-grant reconciliation
(`grants_func`, revoke unset) consults no server state — its embedding takes no
observed-state argument because lines 233-308 issue no read query — so a second
call with identical inputs returns exactly what the first call returned:
`changed = true` with one statement re-emitted, not `changed = false` as the claim
requires of the second call. -/
theorem c1_counterexample :
    (grants_func "u" ["select"] ["d1"] ["t1"] false false).changed = true ∧
    (grants_func "u" ["select"] ["d1"] ["t1"] false false).run_queries =
      ["GRANT select on d1.t1 to 'u'"] := ⟨rfl, rfl⟩

/-- Claim C1 amended: idempotence holds for the role-assignment reconciliation in
non-replace modes. Starting from any held set, if the first call succeeds and its
emitted statements are executed (their server-side effect modelled by
`rolesAfterExecution`), a second call with the same desired state against the
resulting held set emits nothing and reports `changed = false`. The privilege-grant
path and the replace mode are excluded: both emit unconditionally (the
privilege path reads no server state, and the role replace branch at lines
214-216 always emits). -/
theorem c1_idempotence_amended (g : String) (R H : List String) (init rev : Bool) :
    ∃ r₁ r₂ : RolesResult,
      grant_roles_func ⟨true, H⟩ g R init false rev = Except.ok r₁ ∧
      grant_roles_func ⟨true, rolesAfterExecution H R rev r₁.changed⟩ g R init false rev =
        Except.ok r₂ ∧
      r₂.changed = false := by
  refine ⟨_, _, grant_roles_func_ok H g R init false rev,
    grant_roles_func_ok _ g R init false rev, ?_⟩
  cases rev with
  | true =>
    by_cases hempty : revokeRoleQueries g H R = []
    · have h1 : (!(rolesQueryList H g R init false true
          (R.all fun role => H.contains role)).isEmpty) = false := by
        show (!(revokeRoleQueries g H R).isEmpty) = false
        rw [hempty]
        rfl
      rw [h1]
      show (!(rolesQueryList H g R init false true
          (R.all fun role => H.contains role)).isEmpty) = false
      exact h1
    · have h1 : (!(rolesQueryList H g R init false true
          (R.all fun role => H.contains role)).isEmpty) = true := by
        show (!(revokeRoleQueries g H R).isEmpty) = true
        rw [List.isEmpty_eq_false.mpr hempty]
        rfl
      rw [h1]
      show (!(rolesQueryList (H.filter fun r => !R.contains r) g R init false true
          (R.all fun role => (H.filter fun r => !R.contains r).contains role)).isEmpty) = false
      rw [rolesQueryList_revoke_nil g R (H.filter fun r => !R.contains r) init false _ ?hmem]
      · rfl
      case hmem =>
        intro role hrole hmem2
        have hfil := (List.mem_filter.mp hmem2).2
        rw [contains_mem_iff.mpr hrole] at hfil
        exact absurd hfil (by decide)
  | false =>
    by_cases hall : R.all (fun role => H.contains role) = true
    · have h0 : rolesQueryList H g R init false false
          (R.all fun role => H.contains role) = [] := rolesQueryList_grant_nil g R H init hall
      have h1 : (!(rolesQueryList H g R init false false
          (R.all fun role => H.contains role)).isEmpty) = false := by
        rw [h0]
        rfl
      rw [h1]
      show (!(rolesQueryList H g R init false false
          (R.all fun role => H.contains role)).isEmpty) = false
      exact h1
    · have hall' : R.all (fun role => H.contains role) = false := Bool.eq_false_iff.mpr hall
      have h0 : rolesQueryList H g R init false false (R.all fun role => H.contains role) =
          (if init then createRoleQueries R else [])
            ++ ["GRANT " ++ String.intercalate ", " R ++ " to '" ++ g ++ "'"] := by
        rw [hall']
        simp [rolesQueryList]
      have hne : (if init then createRoleQueries R else [])
          ++ ["GRANT " ++ String.intercalate ", " R ++ " to '" ++ g ++ "'"] ≠ [] := by
        intro hcon
        exact absurd (List.append_eq_nil.mp hcon).2 (List.cons_ne_nil _ _)
      have h1 : (!(rolesQueryList H g R init false false
          (R.all fun role => H.contains role)).isEmpty) = true := by
        rw [h0, List.isEmpty_eq_false.mpr hne]
        rfl
      rw [h1]
      show (!(rolesQueryList (H ++ R) g R init false false
          (R.all fun role => (H ++ R).contains role)).isEmpty) = false
      have hall2 : R.all (fun role => (H ++ R).contains role) = true := by
        rw [List.all_eq_true]
        intro x hx
        exact contains_mem_iff.mpr (List.mem_append.mpr (Or.inr hx))
      rw [rolesQueryList_grant_nil g R (H ++ R) init hall2]
      rfl

/-- Claim C4 failing input: with cluster-qualified execution requested
(`on_cluster = true`, cluster name `c1`), `main` still renders exactly the same
statements as with the flag unset — the cluster parameters it reads at lines
361-362 are never passed on, and the single emitted statement contains no cluster
clause, contradicting the module's own documented RETURN samples. -/
theorem c4_cluster_clause_missing :
    main_grants_result "u" ["select"] ["d1"] ["t1"] false false true "c1" =
      main_grants_result "u" ["select"] ["d1"] ["t1"] false false false "c1" ∧
    (main_grants_result "u" ["select"] ["d1"] ["t1"] false false true "c1").run_queries =
      ["GRANT select on d1.t1 to 'u'"] := ⟨rfl, rfl⟩

end CHGrants

namespace CHUsers

/-- Claim C9: User-lifecycle composition — for an absent principal with a quota name, a
profile name and a non-empty role list none of which is satisfied, the
reconciliation emits exactly CreateUser, AlterQuota, AlterProfile, GrantRoles in
that order; and each concern is gated only on its own check: an existing user who
lacks only the quota receives exactly the AlterQuota statement. -/
theorem c9_user_lifecycle (user password quota profile : String)
    (roles uq profs sroles : List String) (row : Option (List String))
    (hq : quota ≠ "") (hp : profile ≠ "") (hquota : quota ∉ uq) :
    ((roles ≠ [] → profile ∉ profs → (∃ role ∈ roles, role ∉ sroles) →
      (create_update_user ⟨false, uq, row, profs, sroles⟩ user password roles quota
          profile).run_queries =
        [createUserQuery user password,
         alterQuotaQuery quota (row.getD [] ++ [user]),
         alterProfileQuery user profile,
         grantUserRolesQuery user roles]))
    ∧ (profile ∈ profs → (∀ role ∈ roles, role ∈ sroles) →
      (create_update_user ⟨true, uq, row, profs, sroles⟩ user password roles quota
          profile).run_queries = [alterQuotaQuery quota (row.getD [] ++ [user])]) := by
  constructor
  · intro hr hprof hroles
    rw [create_update_user_queries]
    simp [hq, hp, hquota, hprof, hr, hroles]
  · intro hprof hroles
    rw [create_update_user_queries]
    simp [hq, hp, hquota, hprof, hroles]
    exact fun _ => hroles

/-- Witness for C9: the spec's scenario (absent `tu`, quota `q1`, profile `p1`,
roles `r1`, nothing observed) gives the four statements in order, and an existing
user lacking only the quota gets exactly the quota statement. -/
theorem c9_user_lifecycle_witness :
    ((create_update_user ⟨false, [], none, [], []⟩ "tu" "pw" ["r1"] "q1" "p1").run_queries =
      [createUserQuery "tu" "pw",
       alterQuotaQuery "q1" ((none : Option (List String)).getD [] ++ ["tu"]),
       alterProfileQuery "tu" "p1",
       grantUserRolesQuery "tu" ["r1"]])
    ∧ (create_update_user ⟨true, [], none, ["p1"], ["r1"]⟩ "tu" "pw" ["r1"] "q1"
        "p1").run_queries = [alterQuotaQuery "q1" ((none : Option (List String)).getD []
          ++ ["tu"])] := by
  constructor
  · exact (c9_user_lifecycle "tu" "pw" "q1" "p1" ["r1"] [] [] [] none (by decide) (by decide)
      (by simp)).1 (by simp) (by simp) ⟨"r1", by simp, by simp⟩
  · exact (c9_user_lifecycle "tu" "pw" "q1" "p1" ["r1"] [] ["p1"] ["r1"] none (by decide)
      (by decide) (by simp)).2 (by simp) (by simp)

end CHUsers

namespace CHUsers

/-- Membership in a conditional singleton forces equality with its element. -/
lemma mem_ite_singleton {α : Type} {c : Prop} [Decidable c] {x s : α}
    (h : s ∈ (if c then [x] else [])) : s = x := by
  by_cases hc : c
  · rw [if_pos hc] at h
    exact List.mem_singleton.mp h
  · rw [if_neg hc] at h
    exact absurd h (List.not_mem_nil s)

/-- Membership in a doubly conditional singleton forces equality with its element. -/
lemma mem_ite_ite_singleton {α : Type} {c₁ c₂ : Prop} [Decidable c₁] [Decidable c₂] {x s : α}
    (h : s ∈ (if c₁ then (if c₂ then [x] else []) else [])) : s = x := by
  by_cases h₁ : c₁
  · rw [if_pos h₁] at h
    exact mem_ite_singleton h
  · rw [if_neg h₁] at h
    exact absurd h (List.not_mem_nil s)

/-- Claim C10, implicit: the AlterQuota statement is emitted exactly when the principal is not
already in the named quota's observed apply list (the consistency hypothesis ties
the two reads of `system.quotas` together), its member list is the observed apply
list with the principal appended (the principal alone when the quota query
returned no row), and no AlterQuota statement with any other member list is ever
emitted — existing members are never dropped. -/
theorem c10_alter_quota_members (user password quota profile : String)
    (roles : List String) (obs : UsersObserved) (hq : quota ≠ "")
    (hcons : quota ∈ obs.userQuotaNames ↔ user ∈ obs.quotaApplyRow.getD []) :
    (user ∉ obs.quotaApplyRow.getD [] →
        alterQuotaQuery quota (obs.quotaApplyRow.getD [] ++ [user])
          ∈ (create_update_user obs user password roles quota profile).run_queries)
    ∧ (user ∈ obs.quotaApplyRow.getD [] →
        ∀ ms, alterQuotaQuery quota ms
          ∉ (create_update_user obs user password roles quota profile).run_queries)
    ∧ (∀ ms, alterQuotaQuery quota ms
          ∈ (create_update_user obs user password roles quota profile).run_queries →
        String.intercalate ", " ms =
          String.intercalate ", " (obs.quotaApplyRow.getD [] ++ [user])) := by
  have hq' : (quota != "") = true := bne_iff_ne.mpr hq
  have key2 : user ∈ obs.quotaApplyRow.getD [] →
      ∀ ms, alterQuotaQuery quota ms
        ∉ (create_update_user obs user password roles quota profile).run_queries := by
    intro hin ms hmem
    have hcm : quota ∈ obs.userQuotaNames := hcons.mpr hin
    rw [create_update_user_queries] at hmem
    have hB : (if quota != "" then (if !(obs.userQuotaNames.contains quota) then
        [alterQuotaQuery quota (obs.quotaApplyRow.getD [] ++ [user])] else []) else [])
        = ([] : List String) := by
      simp [hcm]
    rw [hB] at hmem
    rcases List.mem_append.mp hmem with h1 | h4
    · rcases List.mem_append.mp h1 with h2 | h3
      · rcases List.mem_append.mp h2 with h5 | h6
        · exact alterQuotaQuery_ne_createUserQuery quota ms user password
            (mem_ite_singleton h5)
        · exact absurd h6 (List.not_mem_nil _)
      · exact alterQuotaQuery_ne_alterProfileQuery quota ms user profile
          (mem_ite_ite_singleton h3)
    · exact alterQuotaQuery_ne_grantUserRolesQuery quota ms user roles
        (mem_ite_ite_singleton h4)
  refine ⟨?_, key2, ?_⟩
  · intro hnot
    have hnm : quota ∉ obs.userQuotaNames := fun hcc => hnot (hcons.mp hcc)
    rw [create_update_user_queries]
    have hB : (if quota != "" then (if !(obs.userQuotaNames.contains quota) then
        [alterQuotaQuery quota (obs.quotaApplyRow.getD [] ++ [user])] else []) else [])
        = [alterQuotaQuery quota (obs.quotaApplyRow.getD [] ++ [user])] := by
      simp [hq, hnm]
    rw [hB]
    exact List.mem_append.mpr (Or.inl (List.mem_append.mpr (Or.inl
      (List.mem_append.mpr (Or.inr (List.mem_singleton.mpr rfl))))))
  · intro ms hmem
    by_cases hin : user ∈ obs.quotaApplyRow.getD []
    · exact absurd hmem (key2 hin ms)
    · have hnm : quota ∉ obs.userQuotaNames := fun hcc => hin (hcons.mp hcc)
      rw [create_update_user_queries] at hmem
      have hB : (if quota != "" then (if !(obs.userQuotaNames.contains quota) then
          [alterQuotaQuery quota (obs.quotaApplyRow.getD [] ++ [user])] else []) else [])
          = [alterQuotaQuery quota (obs.quotaApplyRow.getD [] ++ [user])] := by
        simp [hq, hnm]
      rw [hB] at hmem
      rcases List.mem_append.mp hmem with h1 | h4
      · rcases List.mem_append.mp h1 with h2 | h3
        · rcases List.mem_append.mp h2 with h5 | h6
          · exact absurd (mem_ite_singleton h5)
              (alterQuotaQuery_ne_createUserQuery quota ms user password)
          · exact alterQuotaQuery_members_inj quota ms _ (List.mem_singleton.mp h6)
        · exact absurd (mem_ite_ite_singleton h3)
            (alterQuotaQuery_ne_alterProfileQuery quota ms user profile)
      · exact absurd (mem_ite_ite_singleton h4)
          (alterQuotaQuery_ne_grantUserRolesQuery quota ms user roles)

/-- Witness for C10: with one observed member `a`, the emitted AlterQuota statement
keeps `a` and appends `tu`; when `tu` is already a member, no AlterQuota statement
is emitted. -/
theorem c10_alter_quota_members_witness :
    (alterQuotaQuery "q1" ((some ["a"] : Option (List String)).getD [] ++ ["tu"])
        ∈ (create_update_user ⟨true, [], some ["a"], [], []⟩ "tu" "pw" [] "q1"
            "").run_queries)
    ∧ (∀ ms, alterQuotaQuery "q1" ms
        ∉ (create_update_user ⟨true, ["q1"], some ["tu"], [], []⟩ "tu" "pw" [] "q1"
            "").run_queries) := by
  constructor
  · exact (c10_alter_quota_members "tu" "pw" "q1" "" [] ⟨true, [], some ["a"], [], []⟩
      (by decide) (by simp)).1 (by simp)
  · exact (c10_alter_quota_members "tu" "pw" "q1" "" [] ⟨true, ["q1"], some ["tu"], [], []⟩
      (by decide) (by simp)).2.1 (by simp)

end CHUsers
